import Mathlib

/-!
Shallow embedding of `collect_anomaly_defense_coverage.py`: the record
loader (`load_data_from_simulated_file`), the record normalizer
(`parse_and_clean_raw_data` with its helper
`execute_complex_validation_function`), and the goal-evaluation logic of
`generate_security_and_resilience_report` (per-goal PASS/FAIL statuses and
the overall verdict).

Modelling conventions:
- Python numbers are modelled with `Int`, exact real arithmetic with `ℚ`.
- A raw record is a Python dict; the code reads the keys
  `total_test_cases`, `successful_cases`, `event_logs` (via `.get` with
  default `[]`) and, per log entry, `status` (via `[...]`, which raises
  `KeyError` when absent).  We model a dict as either empty (`not raw_data`
  is true exactly for the empty dict) or a non-empty record whose relevant
  fields are `Option`-valued, an absent field standing for a dict without
  that key.
- Raising an exception is modelled with `Except PyError`; a value returned
  normally is `Except.ok`.
-/

/-- A Python exception as raised by the code paths we model. -/
inductive PyError
  | keyError (key : String)
  | valueError (msg : String)
deriving DecidableEq, Repr

/-- One entry of `event_logs`.  The code only ever reads `log['status']`;
`id` and `duration_ms` are never accessed, so only `status` is modelled.
`none` stands for an entry dict that has no `status` key. -/
structure EventLog where
  status : Option String
deriving DecidableEq, Repr

/-- The fields of a non-empty raw-record dict that the code reads.  Each is
`Option`-valued: `none` means the dict lacks that key. -/
structure RawRecordFields where
  total_test_cases : Option Int
  successful_cases : Option Int
  event_logs : Option (List EventLog)
  timestamp : Option ℚ
deriving DecidableEq, Repr

/-- A raw-record dict: `empty` is the empty dict `{}` (what the loader
returns on failure; `not raw_data` is true for it), `record` a non-empty
dict with the modelled fields. -/
inductive RawData
  | empty
  | record (fields : RawRecordFields)
deriving DecidableEq, Repr

/-- The normalizer's output dict `{"total": _, "success": _, "rate": _}`. -/
structure NormalizedMetric where
  total : Int
  success : Int
  rate : ℚ
deriving DecidableEq, Repr

/-- Python dict subscripting `d[key]`: the value when the key is present,
`KeyError` otherwise. -/
def getField {α : Type} (v : Option α) (key : String) : Except PyError α :=
  match v with
  | none => Except.error (PyError.keyError key)
  | some x => Except.ok x

/-- Line 95: `sum(1 for log in raw_data.get('event_logs', []) if
log['status'] == 'SKIP')`.  Iterates the entries in order; raises
`KeyError` at the first entry without a `status` key. -/
def countSkipped : List EventLog → Except PyError Nat
  | [] => Except.ok 0
  | log :: rest =>
    match getField log.status "status" with
    | Except.error e => Except.error e
    | Except.ok s =>
      match countSkipped rest with
      | Except.error e => Except.error e
      | Except.ok n => Except.ok ((if s = "SKIP" then 1 else 0) + n)

/-- Lines 76-83, `execute_complex_validation_function`.  The function
computes `math.sqrt(input_value * 1.0 + 0.001)` (which raises
`ValueError: math domain error` exactly when its argument is negative),
feeds the result through `math.sin` and `math.exp` (total functions whose
results are discarded), builds and sorts a 500-element random list (also
discarded), and returns `input_value` unchanged.  Only the `sqrt` domain
check can influence control flow, so the model keeps the guard and the
returned value. -/
def execute_complex_validation_function (input_value : ℚ) : Except PyError ℚ :=
  if input_value * 1 + 1/1000 < 0 then
    Except.error (PyError.valueError "math domain error")
  else
    Except.ok input_value

/-- Lines 85-109, `parse_and_clean_raw_data`.  Empty dict → zero metric;
otherwise the skipped-log count is computed first (line 95), then
`total_test_cases` is read and, when ≤ 0, the zero metric is returned
(lines 98-99); otherwise `successful_cases / total_test_cases` is computed
(line 101) and passed through `execute_complex_validation_function`
(line 108). -/
def parse_and_clean_raw_data : RawData → Except PyError NormalizedMetric
  | RawData.empty => Except.ok ⟨0, 0, 0⟩
  | RawData.record r =>
    match countSkipped (r.event_logs.getD []) with
    | Except.error e => Except.error e
    | Except.ok _skipped_logs =>
      match getField r.total_test_cases "total_test_cases" with
      | Except.error e => Except.error e
      | Except.ok total =>
        if total ≤ 0 then Except.ok ⟨0, 0, 0⟩
        else
          match getField r.successful_cases "successful_cases" with
          | Except.error e => Except.error e
          | Except.ok success =>
            let precise_rate : ℚ := (success : ℚ) / (total : ℚ)
            match execute_complex_validation_function precise_rate with
            | Except.error e => Except.error e
            | Except.ok rate => Except.ok ⟨total, success, rate⟩

/-- A deterministic pseudo-random source: some state type `σ` with a step
function producing the next `Int` and the successor state.  Models the
hidden mutable state of Python's global `random` generator. -/
def randList {σ : Type} (step : σ → Int × σ) : Nat → σ → List Int × σ
  | 0, s => ([], s)
  | n + 1, s =>
    let (x, s1) := step s
    let (xs, s2) := randList step n s1
    (x :: xs, s2)

/-- `execute_complex_validation_function` with the random generator's
hidden state made explicit: on the non-error path the list comprehension
`[random.randint(1, 10) for _ in range(500)]` advances the generator 500
times (the list itself is sorted and discarded); on the `sqrt` error path
the comprehension is never reached and the state is untouched. -/
def execute_complex_validation_functionS {σ : Type} (step : σ → Int × σ)
    (input_value : ℚ) (s : σ) : Except PyError ℚ × σ :=
  if input_value * 1 + 1/1000 < 0 then
    (Except.error (PyError.valueError "math domain error"), s)
  else
    let (_useless_list, s2) := randList step 500 s
    (Except.ok input_value, s2)

/-- `parse_and_clean_raw_data` with the random generator's hidden state
made explicit.  Only the call to `execute_complex_validation_function`
touches the generator. -/
def parse_and_clean_raw_dataS {σ : Type} (step : σ → Int × σ) :
    RawData → σ → Except PyError NormalizedMetric × σ
  | RawData.empty, s => (Except.ok ⟨0, 0, 0⟩, s)
  | RawData.record r, s =>
    match countSkipped (r.event_logs.getD []) with
    | Except.error e => (Except.error e, s)
    | Except.ok _skipped_logs =>
      match getField r.total_test_cases "total_test_cases" with
      | Except.error e => (Except.error e, s)
      | Except.ok total =>
        if total ≤ 0 then (Except.ok ⟨0, 0, 0⟩, s)
        else
          match getField r.successful_cases "successful_cases" with
          | Except.error e => (Except.error e, s)
          | Except.ok success =>
            let precise_rate : ℚ := (success : ℚ) / (total : ℚ)
            match execute_complex_validation_functionS step precise_rate s with
            | (Except.error e, s2) => (Except.error e, s2)
            | (Except.ok rate, s2) => (Except.ok ⟨total, success, rate⟩, s2)

/-- What `load_data_from_simulated_file` has in hand before its `try`
block runs: the underlying fetch/sleep may fail, `json.loads` may fail, or
it yields structured data. -/
inductive FetchResult
  | fetchFailure
  | undecodable
  | content (data : RawData)
deriving DecidableEq, Repr

/-- Line 124: `'timestamp' in data`.  The empty dict has no keys. -/
def hasTimestamp : RawData → Bool
  | RawData.empty => false
  | RawData.record r => r.timestamp.isSome

/-- Lines 111-133, `load_data_from_simulated_file`.  Everything inside the
`try` is guarded by `except Exception`, which returns the empty dict `{}`:
a fetch failure, a `json.loads` failure, and a missing `timestamp` field
(which raises `ValueError` at line 125) all produce `{}`; otherwise the
parsed data is returned as is. -/
def load_data_from_simulated_file : FetchResult → RawData
  | FetchResult.fetchFailure => RawData.empty
  | FetchResult.undecodable => RawData.empty
  | FetchResult.content d => if hasTimestamp d then d else RawData.empty

/-- One entry of `PERFORMANCE_GOALS_DICT` (lines 58-74). -/
structure PerformanceGoal where
  description : String
  expected_value : ℚ
  unit : String
deriving DecidableEq, Repr

/-- Line 183: `"PASS" if actual_rate >= expected_value else "FAIL"`. -/
def metricStatus (actual_rate expected_value : ℚ) : String :=
  if actual_rate ≥ expected_value then "PASS" else "FAIL"

/-- The per-metric verdict assembled by the report loop (lines 178-197):
metric name, actual rate, expected threshold, and status string.  Display
formatting is presentation-layer and not modelled. -/
structure Verdict where
  metric_name : String
  actual_rate : ℚ
  expected_value : ℚ
  status : String
deriving DecidableEq, Repr

/-- Python dict lookup `d[key]` on an insertion-ordered dict modelled as an
association list: first binding of the key, `KeyError` when absent. -/
def dictGet {α : Type} : List (String × α) → String → Except PyError α
  | [], key => Except.error (PyError.keyError key)
  | (k, v) :: rest, key => if k = key then Except.ok v else dictGet rest key

/-- Lines 178-197: `for key, goal_data in PERFORMANCE_GOALS_DICT.items()`
— for each goal in order, `processed_metric_data[key]` is read (raising
`KeyError` when the metric is missing) and a verdict row with
`metricStatus` is produced.  The loop body is not wrapped in any handler,
so a raised `KeyError` aborts report generation. -/
def evaluateGoals : List (String × PerformanceGoal) →
    List (String × NormalizedMetric) → Except PyError (List Verdict)
  | [], _ => Except.ok []
  | (key, goal) :: rest, metrics =>
    match dictGet metrics key with
    | Except.error e => Except.error e
    | Except.ok m =>
      match evaluateGoals rest metrics with
      | Except.error e => Except.error e
      | Except.ok vs =>
        Except.ok (⟨key, m.rate, goal.expected_value,
          metricStatus m.rate goal.expected_value⟩ :: vs)

/-- Line 229: `all(processed_metric_data[key]['rate'] >=
PERFORMANCE_GOALS_DICT[key]['expected_value'] for key in
processed_metric_data)`.  Iterates the processed metrics (not the goals),
looks each key up in the goal dict (raising `KeyError` when absent), and
short-circuits at the first metric below its threshold — so a lookup
after a failing metric is never evaluated. -/
def overallVerdict : List (String × NormalizedMetric) →
    List (String × PerformanceGoal) → Except PyError Bool
  | [], _ => Except.ok true
  | (key, m) :: rest, goals =>
    match dictGet goals key with
    | Except.error e => Except.error e
    | Except.ok g =>
      if m.rate ≥ g.expected_value then overallVerdict rest goals
      else Except.ok false

/-- Modelled from the spec: the "plain ratio successful_cases /
total_test_cases with no transformation applied" (§4.2: "compute `rate =
successful_cases / total_test_cases` exactly").  Used as the reference
side of the refinement claim about the rate pipeline. -/
def spec_plain_ratio (successful_cases total_test_cases : Int) : ℚ :=
  (successful_cases : ℚ) / (total_test_cases : ℚ)

/-! ### Helper lemmas -/

theorem countSkipped_ok (logs : List EventLog) (h : ∀ l ∈ logs, l.status.isSome) :
    ∃ n, countSkipped logs = Except.ok n := by
  induction logs with
  | nil => exact ⟨0, rfl⟩
  | cons l ls ih =>
    obtain ⟨s, hs⟩ := Option.isSome_iff_exists.mp (h l (List.mem_cons_self l ls))
    obtain ⟨n, hn⟩ := ih fun x hx => h x (List.mem_cons_of_mem l hx)
    refine ⟨(if s = "SKIP" then 1 else 0) + n, ?_⟩
    simp [countSkipped, getField, hs, hn]

theorem parse_record_pos (t s : Int) (logs : Option (List EventLog)) (ts : Option ℚ)
    (hlogs : ∀ l ∈ logs.getD [], l.status.isSome) (ht : 0 < t) (hs : 0 ≤ s) :
    parse_and_clean_raw_data (RawData.record ⟨some t, some s, logs, ts⟩)
      = Except.ok ⟨t, s, (s : ℚ) / (t : ℚ)⟩ := by
  obtain ⟨n, hn⟩ := countSkipped_ok _ hlogs
  have ht' : (0 : ℚ) < (t : ℚ) := by exact_mod_cast ht
  have hs' : (0 : ℚ) ≤ (s : ℚ) := by exact_mod_cast hs
  have h0 : (0 : ℚ) ≤ (s : ℚ) / (t : ℚ) := div_nonneg hs' ht'.le
  simp [parse_and_clean_raw_data, hn, getField, not_le.mpr ht,
        execute_complex_validation_function]
  rw [if_neg (show ¬ ((s : ℚ) / (t : ℚ) + 1000⁻¹ < 0) by nlinarith)]

theorem parse_record_nonpos (f : RawRecordFields) (t : Int)
    (htt : f.total_test_cases = some t) (ht : t ≤ 0)
    (hlogs : ∀ l ∈ f.event_logs.getD [], l.status.isSome) :
    parse_and_clean_raw_data (RawData.record f) = Except.ok ⟨0, 0, 0⟩ := by
  obtain ⟨n, hn⟩ := countSkipped_ok _ hlogs
  simp [parse_and_clean_raw_data, hn, htt, getField, ht]

theorem execute_ok_elim (x y : ℚ)
    (h : execute_complex_validation_function x = Except.ok y) : y = x := by
  unfold execute_complex_validation_function at h
  split at h
  · simp at h
  · exact (Except.ok.inj h).symm

theorem parse_record_ok_elim (f : RawRecordFields) (t : Int) (m : NormalizedMetric)
    (htt : f.total_test_cases = some t) (ht : 0 < t)
    (h : parse_and_clean_raw_data (RawData.record f) = Except.ok m) :
    ∃ s, f.successful_cases = some s ∧ m = ⟨t, s, (s : ℚ) / (t : ℚ)⟩ := by
  simp only [parse_and_clean_raw_data] at h
  rw [htt] at h
  cases hc : countSkipped (f.event_logs.getD []) with
  | error e => rw [hc] at h; simp at h
  | ok n =>
    rw [hc] at h
    simp [getField, not_le.mpr ht] at h
    cases hsc : f.successful_cases with
    | none => rw [hsc] at h; simp at h
    | some s =>
      rw [hsc] at h
      simp only [getField] at h
      cases he : execute_complex_validation_function ((s : ℚ) / (t : ℚ)) with
      | error e => rw [he] at h; simp at h
      | ok rate =>
        rw [he] at h
        simp only [Except.ok.injEq] at h
        exact ⟨s, rfl, by rw [← h, execute_ok_elim _ _ he]⟩

/-! ### C1 -/

/-- C1, counterexample to the claim as stated: a raw record with
`total_test_cases = 500 > 0` and `successful_cases = -1` (the schema
promises `0 ≤ successful_cases` only as an expectation, "not guaranteed by
source").  The ratio is `-1/500 = -0.002`, so inside
`execute_complex_validation_function` the argument of `math.sqrt` is
negative and the normalizer raises `ValueError: math domain error` instead
of returning a metric with `rate = successful_cases / total_test_cases`. -/
theorem c1_counterexample :
    parse_and_clean_raw_data
        (RawData.record ⟨some 500, some (-1), some [], some 0⟩)
      = Except.error (PyError.valueError "math domain error") := by
  simp [parse_and_clean_raw_data, countSkipped, getField,
        execute_complex_validation_function]
  rw [if_pos (show (-1 : ℚ) / 500 + 1000⁻¹ < 0 by norm_num)]

/-- C1, amended: for every raw record carrying its schema fields
(`total_test_cases` and `successful_cases` present, every `event_logs`
entry with a `status`) with `total_test_cases > 0` and `0 ≤
successful_cases`, the normalizer returns `rate = successful_cases /
total_test_cases` exactly, with `success` and `total` copied unchanged;
no clamping is applied, so `successful_cases > total_test_cases` yields a
rate above `1`.  (Without `0 ≤ successful_cases` the `sqrt` guard inside
`execute_complex_validation_function` can raise, see the
counterexample.) -/
theorem c1_rate_exact_no_clamping (t s : Int) (logs : Option (List EventLog))
    (ts : Option ℚ) (hlogs : ∀ l ∈ logs.getD [], l.status.isSome)
    (ht : 0 < t) (hs : 0 ≤ s) :
    parse_and_clean_raw_data (RawData.record ⟨some t, some s, logs, ts⟩)
        = Except.ok ⟨t, s, (s : ℚ) / (t : ℚ)⟩
      ∧ (t < s → 1 < (s : ℚ) / (t : ℚ)) := by
  refine ⟨parse_record_pos t s logs ts hlogs ht hs, fun hlt => ?_⟩
  have ht' : (0 : ℚ) < (t : ℚ) := by exact_mod_cast ht
  exact (one_lt_div ht').mpr (by exact_mod_cast hlt)

/-- Witness for C1 at `total = 4`, `success = 5`. -/
theorem c1_rate_exact_no_clamping_witness :
    ((0 : Int) < 4 ∧ (0 : Int) ≤ 5) ∧
      (parse_and_clean_raw_data
          (RawData.record ⟨some 4, some 5, some [⟨some "SKIP"⟩], some 0⟩)
          = Except.ok ⟨4, 5, ((5 : Int) : ℚ) / ((4 : Int) : ℚ)⟩
        ∧ ((4 : Int) < 5 → 1 < ((5 : Int) : ℚ) / ((4 : Int) : ℚ))) :=
  ⟨⟨by norm_num, by norm_num⟩,
    c1_rate_exact_no_clamping 4 5 (some [⟨some "SKIP"⟩]) (some 0)
      (by simp) (by norm_num) (by norm_num)⟩

/-! ### C2 -/

/-- C2: for every raw record that is empty, or whose `total_test_cases`
field is present with a value ≤ 0 (and whose `event_logs` entries carry
their `status`, so that the quality-filter scan at line 95 — which runs
first — does not itself raise), the normalizer returns
`{total: 0, success: 0, rate: 0.0}` regardless of the reported
`successful_cases`, which is left completely unconstrained (it may even be
absent: the guard returns before line 101 ever reads it). -/
theorem c2_total_nonpositive_forces_zero (raw : RawData)
    (h : raw = RawData.empty ∨
      ∃ f t, raw = RawData.record f ∧ f.total_test_cases = some t ∧ t ≤ 0 ∧
        ∀ l ∈ f.event_logs.getD [], l.status.isSome) :
    parse_and_clean_raw_data raw = Except.ok ⟨0, 0, 0⟩ := by
  rcases h with rfl | ⟨f, t, rfl, htt, ht, hlogs⟩
  · rfl
  · exact parse_record_nonpos f t htt ht hlogs

/-- Witness for C2 at the spec's example `{total = 0, success = 5}`. -/
theorem c2_total_nonpositive_forces_zero_witness :
    (RawData.record ⟨some 0, some 5, none, some 0⟩ = RawData.empty ∨
      ∃ f t, RawData.record ⟨some 0, some 5, none, some 0⟩ = RawData.record f ∧
        f.total_test_cases = some t ∧ t ≤ 0 ∧
        ∀ l ∈ f.event_logs.getD [], l.status.isSome) ∧
      parse_and_clean_raw_data (RawData.record ⟨some 0, some 5, none, some 0⟩)
        = Except.ok ⟨0, 0, 0⟩ := by
  have hh : RawData.record ⟨some 0, some 5, none, some 0⟩ = RawData.empty ∨
      ∃ f t, RawData.record ⟨some 0, some 5, none, some 0⟩ = RawData.record f ∧
        f.total_test_cases = some t ∧ t ≤ 0 ∧
        ∀ l ∈ f.event_logs.getD [], l.status.isSome :=
    Or.inr ⟨⟨some 0, some 5, none, some 0⟩, 0, rfl, rfl, le_rfl, by simp⟩
  exact ⟨hh, c2_total_nonpositive_forces_zero _ hh⟩

/-! ### C3 -/

/-- C3: in every verdict the report loop (lines 178-197) produces, the
status is `"PASS"` if and only if the metric's actual rate is at least the
goal's expected rate; the boundary is inclusive, since on equality
`actual_rate >= expected_value` holds and line 183 selects `"PASS"`. -/
theorem c3_pass_iff_rate_ge_threshold
    (goals : List (String × PerformanceGoal))
    (metrics : List (String × NormalizedMetric)) (vs : List Verdict)
    (h : evaluateGoals goals metrics = Except.ok vs) :
    ∀ v ∈ vs, (v.status = "PASS" ↔ v.expected_value ≤ v.actual_rate) := by
  induction goals generalizing vs with
  | nil =>
    simp only [evaluateGoals, Except.ok.injEq] at h
    subst h
    intro v hv
    simp at hv
  | cons g rest ih =>
    obtain ⟨key, goal⟩ := g
    simp only [evaluateGoals] at h
    cases hd : dictGet metrics key with
    | error e => rw [hd] at h; simp at h
    | ok m =>
      rw [hd] at h
      cases hrest : evaluateGoals rest metrics with
      | error e => rw [hrest] at h; simp at h
      | ok vs0 =>
        rw [hrest] at h
        simp only [Except.ok.injEq] at h
        subst h
        intro v hv
        rcases List.mem_cons.mp hv with rfl | hv0
        · unfold metricStatus
          split
          · simpa using ‹m.rate ≥ goal.expected_value›
          · constructor
            · intro hps; simp at hps
            · intro hle; exact absurd hle (by simpa using ‹¬ m.rate ≥ goal.expected_value›)
        · exact ih vs0 hrest v hv0

/-- Witness for C3: a two-goal evaluation with one passing and one failing
metric, the passing one exactly at its threshold. -/
theorem c3_pass_iff_rate_ge_threshold_witness :
    evaluateGoals
        [("A", ⟨"A", 9/10, "%"⟩), ("B", ⟨"B", 95/100, "%"⟩)]
        [("A", ⟨10, 9, 9/10⟩), ("B", ⟨10, 5, 1/2⟩)]
      = Except.ok
        [⟨"A", 9/10, 9/10, "PASS"⟩, ⟨"B", 1/2, 95/100, "FAIL"⟩] ∧
      ∀ v ∈ [Verdict.mk "A" (9/10) (9/10) "PASS",
             Verdict.mk "B" (1/2) (95/100) "FAIL"],
        (v.status = "PASS" ↔ v.expected_value ≤ v.actual_rate) := by
  have hev : evaluateGoals
      [("A", ⟨"A", 9/10, "%"⟩), ("B", ⟨"B", 95/100, "%"⟩)]
      [("A", ⟨10, 9, 9/10⟩), ("B", ⟨10, 5, 1/2⟩)]
      = Except.ok
        [⟨"A", 9/10, 9/10, "PASS"⟩, ⟨"B", 1/2, 95/100, "FAIL"⟩] := by
    have hAB : ¬ (("A" : String) = "B") := by decide
    norm_num [evaluateGoals, dictGet, metricStatus, hAB]
  exact ⟨hev, c3_pass_iff_rate_ge_threshold _ _ _ hev⟩

/-! ### C5 -/

/-- C5: whenever the fetch fails, the content cannot be deserialized, or
the deserialized content lacks the `timestamp` field, the loader does not
raise: the `except Exception` handler returns the empty dict, the
normalizer then yields the zero metric with `rate = 0.0`, and against any
positive threshold the status function at line 183 yields `"FAIL"` — the
report is degraded, not aborted. -/
theorem c5_load_failure_degrades_to_fail (f : FetchResult) (e : ℚ)
    (hf : f = FetchResult.fetchFailure ∨ f = FetchResult.undecodable ∨
      ∃ d, f = FetchResult.content d ∧ hasTimestamp d = false)
    (he : 0 < e) :
    load_data_from_simulated_file f = RawData.empty ∧
      parse_and_clean_raw_data (load_data_from_simulated_file f)
        = Except.ok ⟨0, 0, 0⟩ ∧
      metricStatus (0 : ℚ) e = "FAIL" := by
  have hload : load_data_from_simulated_file f = RawData.empty := by
    rcases hf with rfl | rfl | ⟨d, rfl, hts⟩
    · rfl
    · rfl
    · simp [load_data_from_simulated_file, hts]
  refine ⟨hload, by rw [hload]; rfl, ?_⟩
  unfold metricStatus
  rw [if_neg (not_le.mpr he)]

/-- Witness for C5: a failed fetch against the 0.90 threshold. -/
theorem c5_load_failure_degrades_to_fail_witness :
    ((FetchResult.fetchFailure = FetchResult.fetchFailure ∨
        FetchResult.fetchFailure = FetchResult.undecodable ∨
        ∃ d, FetchResult.fetchFailure = FetchResult.content d ∧
          hasTimestamp d = false) ∧ (0 : ℚ) < 9/10) ∧
      (load_data_from_simulated_file FetchResult.fetchFailure = RawData.empty ∧
        parse_and_clean_raw_data
            (load_data_from_simulated_file FetchResult.fetchFailure)
          = Except.ok ⟨0, 0, 0⟩ ∧
        metricStatus (0 : ℚ) (9/10) = "FAIL") :=
  ⟨⟨Or.inl rfl, by norm_num⟩,
    c5_load_failure_degrades_to_fail FetchResult.fetchFailure (9/10)
      (Or.inl rfl) (by norm_num)⟩

/-! ### C6 -/

theorem dictGet_missing {α : Type} (metrics : List (String × α)) (key : String)
    (h : ∀ q ∈ metrics, q.1 ≠ key) :
    dictGet metrics key = Except.error (PyError.keyError key) := by
  induction metrics with
  | nil => rfl
  | cons q qs ih =>
    obtain ⟨k, v⟩ := q
    have hk : k ≠ key := h (k, v) (List.mem_cons_self _ _)
    have hstep : dictGet ((k, v) :: qs) key = dictGet qs key := by
      simp [dictGet, hk]
    rw [hstep]
    exact ih fun p hp => h p (List.mem_cons_of_mem _ hp)

/-- C6: whenever some goal's metric name has no entry in the processed
metric mapping, the verdict loop does not return a verdict list at all:
the `KeyError` raised by `processed_metric_data[key]` at line 179
propagates (there is no handler between the loop at line 178 and the top
level), so report generation aborts instead of silently skipping the
goal. -/
theorem c6_missing_metric_fails_loudly
    (goals : List (String × PerformanceGoal))
    (metrics : List (String × NormalizedMetric))
    (h : ∃ p ∈ goals, ∀ q ∈ metrics, q.1 ≠ p.1) :
    ∃ err, evaluateGoals goals metrics = Except.error err := by
  induction goals with
  | nil => simp at h
  | cons g rest ih =>
    obtain ⟨key, goal⟩ := g
    obtain ⟨p, hp, hmiss⟩ := h
    rcases List.mem_cons.mp hp with rfl | htail
    · refine ⟨PyError.keyError key, ?_⟩
      have hd := dictGet_missing metrics key fun q hq => hmiss q hq
      simp [evaluateGoals, hd]
    · obtain ⟨err, herr⟩ := ih ⟨p, htail, hmiss⟩
      cases hd : dictGet metrics key with
      | error e => exact ⟨e, by simp [evaluateGoals, hd]⟩
      | ok m => exact ⟨err, by simp [evaluateGoals, hd, herr]⟩

/-- Witness for C6: one goal, no processed metrics at all. -/
theorem c6_missing_metric_fails_loudly_witness :
    (∃ p ∈ [("Anomaly Detection Response Rate",
        PerformanceGoal.mk "Anomaly Event Detection Response Rate" (9/10) "%")],
      ∀ q ∈ ([] : List (String × NormalizedMetric)), q.1 ≠ p.1) ∧
      ∃ err, evaluateGoals
          [("Anomaly Detection Response Rate",
            PerformanceGoal.mk "Anomaly Event Detection Response Rate" (9/10) "%")]
          [] = Except.error err := by
  have hh : ∃ p ∈ [("Anomaly Detection Response Rate",
      PerformanceGoal.mk "Anomaly Event Detection Response Rate" (9/10) "%")],
      ∀ q ∈ ([] : List (String × NormalizedMetric)), q.1 ≠ p.1 :=
    ⟨_, List.mem_cons_self _ _, fun q hq => absurd hq (List.not_mem_nil q)⟩
  exact ⟨hh, c6_missing_metric_fails_loudly _ _ hh⟩

/-! ### C7 -/

/-- C7: for records with `total_test_cases > 0` the skipped-entry count
over `event_logs` is informational only.  Whenever two records agree on
everything but their `event_logs` and the normalizer returns a metric for
both, the two metrics are identical — in particular the rates are equal —
and the rate's denominator is the record's `total_test_cases` field, not a
recount derived from `event_logs`. -/
theorem c7_event_logs_informational_only (t : Int) (sc : Option Int)
    (logs1 logs2 : Option (List EventLog)) (ts : Option ℚ)
    (m1 m2 : NormalizedMetric) (ht : 0 < t)
    (h1 : parse_and_clean_raw_data (RawData.record ⟨some t, sc, logs1, ts⟩)
      = Except.ok m1)
    (h2 : parse_and_clean_raw_data (RawData.record ⟨some t, sc, logs2, ts⟩)
      = Except.ok m2) :
    m1.rate = m2.rate ∧ m1 = m2 ∧
      ∃ s, sc = some s ∧ m1.rate = (s : ℚ) / (t : ℚ) := by
  obtain ⟨s1, hs1, hm1⟩ := parse_record_ok_elim _ t m1 rfl ht h1
  obtain ⟨s2, hs2, hm2⟩ := parse_record_ok_elim _ t m2 rfl ht h2
  have hs1' : sc = some s1 := hs1
  have hs2' : sc = some s2 := hs2
  obtain rfl : s1 = s2 := Option.some.inj (hs1'.symm.trans hs2')
  subst hm1
  subst hm2
  exact ⟨rfl, rfl, s1, hs1', rfl⟩

/-- Witness for C7: the same record once with a `SKIP`-heavy log and once
with no `event_logs` key at all. -/
theorem c7_event_logs_informational_only_witness :
    ((0 : Int) < 4 ∧
      parse_and_clean_raw_data
          (RawData.record ⟨some 4, some 2, some [⟨some "SKIP"⟩, ⟨some "SKIP"⟩], some 0⟩)
        = Except.ok ⟨4, 2, ((2 : Int) : ℚ) / ((4 : Int) : ℚ)⟩ ∧
      parse_and_clean_raw_data (RawData.record ⟨some 4, some 2, none, some 0⟩)
        = Except.ok ⟨4, 2, ((2 : Int) : ℚ) / ((4 : Int) : ℚ)⟩) ∧
      ((NormalizedMetric.mk 4 2 (((2 : Int) : ℚ) / ((4 : Int) : ℚ))).rate
          = (NormalizedMetric.mk 4 2 (((2 : Int) : ℚ) / ((4 : Int) : ℚ))).rate ∧
        NormalizedMetric.mk 4 2 (((2 : Int) : ℚ) / ((4 : Int) : ℚ))
          = NormalizedMetric.mk 4 2 (((2 : Int) : ℚ) / ((4 : Int) : ℚ)) ∧
        ∃ s, (some 2 : Option Int) = some s ∧
          (NormalizedMetric.mk 4 2 (((2 : Int) : ℚ) / ((4 : Int) : ℚ))).rate
            = (s : ℚ) / ((4 : Int) : ℚ)) := by
  have h1 : parse_and_clean_raw_data
      (RawData.record ⟨some 4, some 2, some [⟨some "SKIP"⟩, ⟨some "SKIP"⟩], some 0⟩)
      = Except.ok ⟨4, 2, ((2 : Int) : ℚ) / ((4 : Int) : ℚ)⟩ :=
    parse_record_pos 4 2 (some [⟨some "SKIP"⟩, ⟨some "SKIP"⟩]) (some 0)
      (by simp) (by norm_num) (by norm_num)
  have h2 : parse_and_clean_raw_data (RawData.record ⟨some 4, some 2, none, some 0⟩)
      = Except.ok ⟨4, 2, ((2 : Int) : ℚ) / ((4 : Int) : ℚ)⟩ :=
    parse_record_pos 4 2 none (some 0) (by simp) (by norm_num) (by norm_num)
  exact ⟨⟨by norm_num, h1, h2⟩,
    c7_event_logs_informational_only 4 (some 2) _ _ (some 0) _ _
      (by norm_num) h1 h2⟩

/-! ### C8 -/

/-- C8, counterexample to the claim as stated: a non-empty raw record
lacking the `total_test_cases` key (here all modelled keys are absent).
Line 98 subscripts `raw_data['total_test_cases']`, so the normalizer
raises `KeyError` instead of returning a normalized metric: it is not a
total function on arbitrary non-empty records. -/
theorem c8_counterexample :
    parse_and_clean_raw_data (RawData.record ⟨none, none, none, none⟩)
      = Except.error (PyError.keyError "total_test_cases") := rfl

/-- C8, amended: the normalizer never raises on the empty record, and on
any schema-conformant record — `total_test_cases` and `successful_cases`
present, every `event_logs` entry carrying a `status`, and
`successful_cases ≥ 0` — it returns a normalized metric.  On non-empty
records missing those keys it raises `KeyError` (see the counterexample),
and for sufficiently negative `successful_cases` the `sqrt` guard raises
`ValueError`, so the Loader is not the only stage that can fail. -/
theorem c8_normalizer_total_on_conformant_records :
    parse_and_clean_raw_data RawData.empty = Except.ok ⟨0, 0, 0⟩ ∧
      ∀ (t s : Int) (logs : Option (List EventLog)) (ts : Option ℚ),
        (∀ l ∈ logs.getD [], l.status.isSome) → 0 ≤ s →
        ∃ m, parse_and_clean_raw_data (RawData.record ⟨some t, some s, logs, ts⟩)
          = Except.ok m := by
  refine ⟨rfl, fun t s logs ts hlogs hs => ?_⟩
  rcases le_or_lt t 0 with ht | ht
  · exact ⟨⟨0, 0, 0⟩, parse_record_nonpos ⟨some t, some s, logs, ts⟩ t rfl ht hlogs⟩
  · exact ⟨⟨t, s, (s : ℚ) / (t : ℚ)⟩, parse_record_pos t s logs ts hlogs ht hs⟩

/-- Witness for C8 at a conformant record with `total = 3`,
`success = 7`. -/
theorem c8_normalizer_total_on_conformant_records_witness :
    ((0 : Int) ≤ 7) ∧
      (parse_and_clean_raw_data RawData.empty = Except.ok ⟨0, 0, 0⟩ ∧
        ∃ m, parse_and_clean_raw_data
            (RawData.record ⟨some 3, some 7, some [⟨some "TIMEOUT"⟩], some 0⟩)
          = Except.ok m) :=
  ⟨by norm_num,
    c8_normalizer_total_on_conformant_records.1,
    c8_normalizer_total_on_conformant_records.2 3 7 (some [⟨some "TIMEOUT"⟩])
      (some 0) (by simp) (by norm_num)⟩

/-! ### C9 -/

theorem executeS_fst {σ : Type} (step : σ → Int × σ) (x : ℚ) (s : σ) :
    (execute_complex_validation_functionS step x s).1
      = execute_complex_validation_function x := by
  unfold execute_complex_validation_functionS execute_complex_validation_function
  split
  · rfl
  · cases hr : randList step 500 s with
    | mk l s2 => rfl

theorem parseS_fst {σ : Type} (step : σ → Int × σ) (raw : RawData) (s : σ) :
    (parse_and_clean_raw_dataS step raw s).1 = parse_and_clean_raw_data raw := by
  cases raw with
  | empty => rfl
  | record r =>
    simp only [parse_and_clean_raw_dataS, parse_and_clean_raw_data]
    cases hc : countSkipped (r.event_logs.getD []) with
    | error e => rfl
    | ok n =>
      cases htt : getField r.total_test_cases "total_test_cases" with
      | error e => rfl
      | ok total =>
        simp only []
        by_cases ht : total ≤ 0
        · rw [if_pos ht, if_pos ht]
        · rw [if_neg ht, if_neg ht]
          cases hsc : getField r.successful_cases "successful_cases" with
          | error e => rfl
          | ok success =>
            simp only []
            have hfst := executeS_fst step ((success : ℚ) / (total : ℚ)) s
            cases he : execute_complex_validation_functionS step
                ((success : ℚ) / (total : ℚ)) s with
            | mk res s2 =>
              rw [he] at hfst
              have hres : res = execute_complex_validation_function
                  ((success : ℚ) / (total : ℚ)) := hfst
              rw [← hres]
              cases res with
              | error e => rfl
              | ok rate => rfl

/-- C9: the normalizer's result does not depend on the hidden mutable
state it touches (the global `random` generator advanced inside
`execute_complex_validation_function`): run with the generator state made
explicit, the returned value from any state equals the pure function of
the record, and hence a second call on the same `RawRecord` — starting
from the state the first call left behind — returns the identical
normalized metric. -/
theorem c9_normalizer_deterministic_idempotent (σ : Type) (step : σ → Int × σ)
    (raw : RawData) (s : σ) :
    (parse_and_clean_raw_dataS step raw s).1 = parse_and_clean_raw_data raw ∧
      (parse_and_clean_raw_dataS step raw
          ((parse_and_clean_raw_dataS step raw s).2)).1
        = (parse_and_clean_raw_dataS step raw s).1 := by
  refine ⟨parseS_fst step raw s, ?_⟩
  rw [parseS_fst, parseS_fst]

/-! ### C10 -/

/-- C10: for every input `x` with `x + 0.001 ≥ 0`,
`execute_complex_validation_function` returns `x` unchanged (its
sqrt/sin/exp and random-list computations are dead code for the returned
value), and consequently on schema-conformant records with positive total
and nonnegative success the pipeline's rate is exactly the plain ratio
`successful_cases / total_test_cases` of the spec
(`spec_plain_ratio`), with no transformation applied. -/
theorem c10_validation_function_is_identity :
    (∀ x : ℚ, 0 ≤ x + 1/1000 →
        execute_complex_validation_function x = Except.ok x) ∧
      ∀ (t s : Int) (logs : Option (List EventLog)) (ts : Option ℚ),
        (∀ l ∈ logs.getD [], l.status.isSome) → 0 < t → 0 ≤ s →
        parse_and_clean_raw_data (RawData.record ⟨some t, some s, logs, ts⟩)
          = Except.ok ⟨t, s, spec_plain_ratio s t⟩ := by
  constructor
  · intro x hx
    unfold execute_complex_validation_function
    rw [if_neg (by rw [mul_one]; exact not_lt.mpr hx)]
  · intro t s logs ts hlogs ht hs
    exact parse_record_pos t s logs ts hlogs ht hs

/-- Witness for C10: the identity at `x = 3/4` and the pipeline at the
spec's example record `{total = 850, success = 833}`. -/
theorem c10_validation_function_is_identity_witness :
    ((0 : ℚ) ≤ 3/4 + 1/1000 ∧
        execute_complex_validation_function (3/4) = Except.ok (3/4)) ∧
      ((0 : Int) < 850 ∧ (0 : Int) ≤ 833 ∧
        parse_and_clean_raw_data
            (RawData.record ⟨some 850, some 833, none, some 0⟩)
          = Except.ok ⟨850, 833, spec_plain_ratio 833 850⟩) :=
  ⟨⟨by norm_num, c10_validation_function_is_identity.1 (3/4) (by norm_num)⟩,
    by norm_num, by norm_num,
    c10_validation_function_is_identity.2 850 833 none (some 0)
      (by simp) (by norm_num) (by norm_num)⟩

/-! ### C4 -/

theorem dictGet_head {α : Type} (k : String) (v : α) (rest : List (String × α)) :
    dictGet ((k, v) :: rest) k = Except.ok v := by
  simp [dictGet]

theorem dictGet_skip {α : Type} (k key : String) (v : α)
    (rest : List (String × α)) (h : k ≠ key) :
    dictGet ((k, v) :: rest) key = dictGet rest key := by
  simp [dictGet, h]

theorem evaluateGoals_skip (goals : List (String × PerformanceGoal)) (k : String)
    (m : NormalizedMetric) (ms : List (String × NormalizedMetric))
    (h : ∀ p ∈ goals, p.1 ≠ k) :
    evaluateGoals goals ((k, m) :: ms) = evaluateGoals goals ms := by
  induction goals with
  | nil => rfl
  | cons g rest ih =>
    obtain ⟨key, goal⟩ := g
    have hkey : key ≠ k := h (key, goal) (List.mem_cons_self _ _)
    have hd : dictGet ((k, m) :: ms) key = dictGet ms key :=
      dictGet_skip k key m ms (Ne.symm hkey)
    simp only [evaluateGoals, hd, ih fun p hp => h p (List.mem_cons_of_mem _ hp)]

theorem overallVerdict_skip (ms : List (String × NormalizedMetric)) (k : String)
    (g : PerformanceGoal) (goals : List (String × PerformanceGoal))
    (h : ∀ p ∈ ms, p.1 ≠ k) :
    overallVerdict ms ((k, g) :: goals) = overallVerdict ms goals := by
  induction ms with
  | nil => rfl
  | cons q rest ih =>
    obtain ⟨key, m⟩ := q
    have hkey : key ≠ k := h (key, m) (List.mem_cons_self _ _)
    have hd : dictGet ((k, g) :: goals) key = dictGet goals key :=
      dictGet_skip k key g goals (Ne.symm hkey)
    simp only [overallVerdict, hd]
    cases hdg : dictGet goals key with
    | error e => rfl
    | ok gg =>
      simp only []
      split
      · exact ih fun p hp => h p (List.mem_cons_of_mem _ hp)
      · rfl

/-- C4, counterexample to the claim as stated: with a non-empty processed
metric mapping and an *empty* goal mapping, the overall-verdict
computation at line 229 is not the vacuous `True` and does not run
without error — its generator expression evaluates
`PERFORMANCE_GOALS_DICT[key]` for the first processed metric and raises
`KeyError`, crashing the evaluator. -/
theorem c4_counterexample :
    overallVerdict [("Anomaly Detection Response Rate",
        NormalizedMetric.mk 850 833 (833/850))] []
      = Except.error (PyError.keyError "Anomaly Detection Response Rate") := rfl

/-- C4, amended: whenever the processed-metric mapping and the goal
mapping carry exactly the same keys (as they do in the shipped
configuration — and in particular both may be empty, which yields the
vacuous overall `true`), the verdict loop succeeds and the overall verdict
of line 229 equals the logical AND of the per-metric PASS statuses; with
an empty metric mapping the overall verdict is `true` no matter the
goals.  What the counterexample removes from the original claim is only
the parenthetical that an empty goal set cannot crash the evaluator: with
metrics present and no goals, line 229 raises `KeyError`. -/
theorem c4_overall_is_conjunction_of_statuses
    (metrics : List (String × NormalizedMetric))
    (goals : List (String × PerformanceGoal))
    (hkeys : metrics.map Prod.fst = goals.map Prod.fst)
    (hnodup : (goals.map Prod.fst).Nodup) :
    (∃ vs, evaluateGoals goals metrics = Except.ok vs ∧
        overallVerdict metrics goals
          = Except.ok (vs.all fun v => v.status == "PASS")) ∧
      overallVerdict [] goals = Except.ok true := by
  refine ⟨?_, rfl⟩
  revert hkeys hnodup
  induction goals generalizing metrics with
  | nil =>
    intro hkeys _
    have hmet : metrics = [] := by
      cases metrics with
      | nil => rfl
      | cons q qs => simp at hkeys
    subst hmet
    exact ⟨[], rfl, rfl⟩
  | cons g gs ih =>
    intro hkeys hnodup
    obtain ⟨k, goal⟩ := g
    cases metrics with
    | nil => simp at hkeys
    | cons q ms =>
      obtain ⟨k2, m⟩ := q
      simp only [List.map_cons, List.cons.injEq] at hkeys
      obtain ⟨heq, hkeys'⟩ := hkeys
      subst heq
      have hnotin : k2 ∉ gs.map Prod.fst := (List.nodup_cons.mp hnodup).1
      have hnodup' : (gs.map Prod.fst).Nodup := (List.nodup_cons.mp hnodup).2
      have hgoalsne : ∀ p ∈ gs, p.1 ≠ k2 := by
        intro p hp hpe
        exact hnotin (hpe ▸ List.mem_map_of_mem Prod.fst hp)
      have hmsne : ∀ p ∈ ms, p.1 ≠ k2 := by
        intro p hp hpe
        have : p.1 ∈ gs.map Prod.fst := by
          rw [← hkeys']
          exact List.mem_map_of_mem Prod.fst hp
        exact hnotin (hpe ▸ this)
      obtain ⟨vs, hev, hov⟩ := ih ms hkeys' hnodup'
      have hbeqT : (("PASS" : String) == "PASS") = true := by decide
      have hbeqF : (("FAIL" : String) == "PASS") = false := by decide
      refine ⟨⟨k2, m.rate, goal.expected_value,
        metricStatus m.rate goal.expected_value⟩ :: vs, ?_, ?_⟩
      · simp only [evaluateGoals, dictGet_head,
          evaluateGoals_skip gs k2 m ms hgoalsne, hev]
      · simp only [overallVerdict, dictGet_head,
          overallVerdict_skip ms k2 goal gs hmsne]
        by_cases hge : m.rate ≥ goal.expected_value
        · rw [if_pos hge, hov]
          simp [List.all_cons, metricStatus, if_pos hge, hbeqT]
        · rw [if_neg hge]
          simp [List.all_cons, metricStatus, if_neg hge, hbeqF]

/-- Witness for C4: two metrics with matching goals, one of them failing,
so the overall verdict is the AND of the statuses (here `false`). -/
theorem c4_overall_is_conjunction_of_statuses_witness :
    (([("A", NormalizedMetric.mk 10 9 (9/10)),
        ("B", NormalizedMetric.mk 10 5 (1/2))].map Prod.fst
        = [("A", PerformanceGoal.mk "goal a" (9/10) "%"),
           ("B", PerformanceGoal.mk "goal b" (95/100) "%")].map Prod.fst) ∧
      ([("A", PerformanceGoal.mk "goal a" (9/10) "%"),
        ("B", PerformanceGoal.mk "goal b" (95/100) "%")].map Prod.fst).Nodup) ∧
      ((∃ vs, evaluateGoals
            [("A", PerformanceGoal.mk "goal a" (9/10) "%"),
             ("B", PerformanceGoal.mk "goal b" (95/100) "%")]
            [("A", NormalizedMetric.mk 10 9 (9/10)),
             ("B", NormalizedMetric.mk 10 5 (1/2))] = Except.ok vs ∧
          overallVerdict
            [("A", NormalizedMetric.mk 10 9 (9/10)),
             ("B", NormalizedMetric.mk 10 5 (1/2))]
            [("A", PerformanceGoal.mk "goal a" (9/10) "%"),
             ("B", PerformanceGoal.mk "goal b" (95/100) "%")]
            = Except.ok (vs.all fun v => v.status == "PASS")) ∧
        overallVerdict []
          [("A", PerformanceGoal.mk "goal a" (9/10) "%"),
           ("B", PerformanceGoal.mk "goal b" (95/100) "%")]
          = Except.ok true) :=
  ⟨⟨rfl, by decide⟩,
    c4_overall_is_conjunction_of_statuses
      [("A", NormalizedMetric.mk 10 9 (9/10)),
       ("B", NormalizedMetric.mk 10 5 (1/2))]
      [("A", PerformanceGoal.mk "goal a" (9/10) "%"),
       ("B", PerformanceGoal.mk "goal b" (95/100) "%")]
      rfl (by decide)⟩
